import Mathlib

/-!
Shallow embedding of drivers/watchdog/mcom_fpga.c (Siemens MCOM FPGA
watchdog driver) and proofs about its register protocol.

The i2c/SMBus transport is modelled as an oracle that, given the history of
bus transactions issued so far and the transaction about to be issued,
returns the s32 outcome (negative errno on failure; for a word read, the
16-bit data on success; for writes, success is 0 and the code only tests
the sign / zeroness exactly as the C does).  Every driver function threads
a `BusTrace` (the oracle plus the ordered log of transactions issued),
mirroring the side effects of `i2c_smbus_read_word_data` /
`i2c_smbus_write_word_data` / `i2c_smbus_write_byte_data`.
-/

namespace McomFpga

/-- WD_DIS_MASK from the source: mask of the low 7 "disable" bits. -/
def WD_DIS_MASK : Nat := 0x7F

/-- WD_MODE_MASK from the source: documented mode-field mask. -/
def WD_MODE_MASK : Nat := 0xF8

/-- WD_START_MODE. -/
def WD_START_MODE : Nat := 0x01

/-- WD_NORMAL_MODE. -/
def WD_NORMAL_MODE : Nat := 0x02

/-- WD_DOWN_MODE. -/
def WD_DOWN_MODE : Nat := 0x04

/-- Register addresses, from the defines at the top of the source file. -/
def WD_STATUS_CONTROLL : Nat := 0x00

def WD_DISABLE_UBS : Nat := 0x12

def WD_UPTIME : Nat := 0x20

def WD_NORMALTIME : Nat := 0x22

def WD_DOWNTIME : Nat := 0x24

def WD_UBSTIME : Nat := 0x26

def WD_PEREPHERIE_RESET : Nat := 0x28

def WD_WINDOWTIME : Nat := 0x2C

def WD_KICK : Nat := 0x2E

def WD_TEMP : Nat := 0x50

def WD_MVB_STATUS : Nat := 0x90

def WD_MVB_CTRL : Nat := 0x92

/-- A single bus transaction, as issued by the driver. -/
inductive BusOp where
  | readWord (addr : Nat)
  | writeWord (addr : Nat) (value : Nat)
  | writeByte (addr : Nat) (value : Nat)
  deriving DecidableEq, Repr

/-- The transport: given the transactions issued so far and the transaction
being issued, the s32 result (negative errno = failure). -/
structure I2CBus where
  outcome : List BusOp → BusOp → Int

/-- The bus together with the ordered log of transactions issued so far. -/
structure BusTrace where
  bus : I2CBus
  log : List BusOp

/-- Model of `i2c_smbus_read_word_data`: one read transaction; on success
the result is the 16-bit word (hence the mask), on failure the errno. -/
def i2c_smbus_read_word_data (st : BusTrace) (addr : Nat) : BusTrace × Int :=
  let op := BusOp.readWord addr
  let r := st.bus.outcome st.log op
  (⟨st.bus, st.log ++ [op]⟩, if r < 0 then r else r % 65536)

/-- Model of `i2c_smbus_write_word_data`: one write transaction carrying a
u16 value (the C parameter type truncates), result 0 or negative errno. -/
def i2c_smbus_write_word_data (st : BusTrace) (addr value : Nat) : BusTrace × Int :=
  let op := BusOp.writeWord addr (value % 65536)
  let r := st.bus.outcome st.log op
  (⟨st.bus, st.log ++ [op]⟩, if r < 0 then r else 0)

/-- Model of `i2c_smbus_write_byte_data`: one byte-write transaction. -/
def i2c_smbus_write_byte_data (st : BusTrace) (addr value : Nat) : BusTrace × Int :=
  let op := BusOp.writeByte addr (value % 256)
  let r := st.bus.outcome st.log op
  (⟨st.bus, st.log ++ [op]⟩, if r < 0 then r else 0)

/-- kick_wdt: write 0x0000, 0x0100, 0x0000 to WD_KICK, returning the first
error immediately (each `if (err) return err;` in the C). -/
def kick_wdt (st : BusTrace) : BusTrace × Int :=
  let p1 := i2c_smbus_write_word_data st WD_KICK 0x0000
  if p1.2 ≠ 0 then p1
  else
    let p2 := i2c_smbus_write_word_data p1.1 WD_KICK 0x0100
    if p2.2 ≠ 0 then p2
    else
      let p3 := i2c_smbus_write_word_data p2.1 WD_KICK 0x0000
      if p3.2 ≠ 0 then p3
      else (p3.1, 0)

/-- mcom_fpga_set_mode: read WD_STATUS_CONTROLL (returning the error if the
read fails, before any write), then write back
`(err & WD_DIS_MASK & WD_MODE_MASK) | mode`.  The `mode` parameter is a u16
in the C, hence the entry mask. -/
def mcom_fpga_set_mode (st : BusTrace) (mode : Nat) : BusTrace × Int :=
  let mode := mode % 65536
  let rd := i2c_smbus_read_word_data st WD_STATUS_CONTROLL
  if rd.2 < 0 then rd
  else
    let v := (rd.2.toNat &&& WD_DIS_MASK &&& WD_MODE_MASK) ||| mode
    i2c_smbus_write_word_data rd.1 WD_STATUS_CONTROLL v

/-- mcom_fpga_start. -/
def mcom_fpga_start (st : BusTrace) : BusTrace × Int :=
  mcom_fpga_set_mode st WD_START_MODE

/-- mcom_fpga_stop. -/
def mcom_fpga_stop (st : BusTrace) : BusTrace × Int :=
  mcom_fpga_set_mode st WD_DOWN_MODE

/-- mcom_fpga_ping: just kick_wdt on the device's client. -/
def mcom_fpga_ping (st : BusTrace) : BusTrace × Int :=
  kick_wdt st

/-- The part of `struct watchdog_device` the driver uses: the cached
timeout (`wdd->timeout`, an unsigned int in the kernel). -/
structure watchdog_device where
  timeout : Nat
  deriving DecidableEq, Repr

/-- mcom_fpga_set_timeout: write the timeout to WD_UPTIME (truncated to u16
by the bus call's parameter type); update `wdd->timeout` only when the
write returned 0; return the write's result. -/
def mcom_fpga_set_timeout (wdd : watchdog_device) (st : BusTrace) (timeout : Nat) :
    watchdog_device × BusTrace × Int :=
  let w := i2c_smbus_write_word_data st WD_UPTIME timeout
  if w.2 = 0 then ({ wdd with timeout := timeout }, w.1, w.2)
  else (wdd, w.1, w.2)

/-- Modelled from the spec and the watchdog core (watchdog_init_timeout is
kernel code outside this repository): adopt the module parameter as the
initial timeout when it is set; the zero-allocated device starts at 0 and
no min/max bound is configured, so any nonzero parameter is accepted. -/
def watchdog_init_timeout (wdd : watchdog_device) (timeout_parm : Nat) : watchdog_device :=
  if timeout_parm ≠ 0 then { wdd with timeout := timeout_parm } else wdd

/-- Result of probe: the registered device when probe published one
(`watchdog_register_device` reached), the final bus trace, and the return
value. -/
structure ProbeResult where
  wdd : Option watchdog_device
  trace : BusTrace
  ret : Int

/-- mcom_fpga_probe: check the fixed i2c address 0x3c; initialize the
timeout from the module parameter; if the timeout is 0, read WD_UPTIME and
adopt it (aborting on a failed read); set the resolved timeout via
mcom_fpga_set_timeout (aborting on failure); write byte 0x00 to register
0x06 (aborting on failure); then register the device. -/
def mcom_fpga_probe (addr wdt_timeout : Nat) (st : BusTrace) : ProbeResult :=
  if addr ≠ 0x3c then ⟨none, st, -19⟩
  else
    let wdd := watchdog_init_timeout ⟨0⟩ wdt_timeout
    let boot : ProbeResult ⊕ (watchdog_device × BusTrace) :=
      if wdd.timeout = 0 then
        let rd := i2c_smbus_read_word_data st WD_UPTIME
        if rd.2 < 0 then Sum.inl ⟨none, rd.1, rd.2⟩
        else Sum.inr ({ wdd with timeout := rd.2.toNat }, rd.1)
      else Sum.inr (wdd, st)
    match boot with
    | Sum.inl r => r
    | Sum.inr (wdd, st) =>
      let s := mcom_fpga_set_timeout wdd st wdd.timeout
      if s.2.2 ≠ 0 then ⟨none, s.2.1, s.2.2⟩
      else
        let pb := i2c_smbus_write_byte_data s.2.1 0x06 0x00
        if pb.2 ≠ 0 then ⟨none, pb.1, pb.2⟩
        else ⟨some s.1, pb.1, 0⟩

/-- The sysfs attributes declared by the driver. -/
inductive WdAttr where
  | status_controll
  | disable_ubs
  | uptime
  | normaltime
  | downtime
  | ubstime
  | perepherie_reset
  | windowtime
  | temperature
  | mvb_status
  | mvb_ctrl
  deriving DecidableEq, Repr

/-- The register each sysfs attribute accesses. -/
def attrReg : WdAttr → Nat
  | .status_controll => WD_STATUS_CONTROLL
  | .disable_ubs => WD_DISABLE_UBS
  | .uptime => WD_UPTIME
  | .normaltime => WD_NORMALTIME
  | .downtime => WD_DOWNTIME
  | .ubstime => WD_UBSTIME
  | .perepherie_reset => WD_PEREPHERIE_RESET
  | .windowtime => WD_WINDOWTIME
  | .temperature => WD_TEMP
  | .mvb_status => WD_MVB_STATUS
  | .mvb_ctrl => WD_MVB_CTRL

/-- Whether the attribute declares a show (read) method: DEVICE_ATTR_RW and
DEVICE_ATTR_RO attributes do, the single DEVICE_ATTR_WO one does not. -/
def attrHasShow : WdAttr → Bool
  | .status_controll => true
  | .disable_ubs => true
  | .uptime => true
  | .normaltime => true
  | .downtime => true
  | .ubstime => true
  | .perepherie_reset => false
  | .windowtime => true
  | .temperature => true
  | .mvb_status => true
  | .mvb_ctrl => true

/-- Whether the attribute declares a store (write) method: DEVICE_ATTR_RW
and DEVICE_ATTR_WO attributes do, the two DEVICE_ATTR_RO ones do not. -/
def attrHasStore : WdAttr → Bool
  | .status_controll => true
  | .disable_ubs => true
  | .uptime => true
  | .normaltime => true
  | .downtime => true
  | .ubstime => true
  | .perepherie_reset => true
  | .windowtime => true
  | .temperature => false
  | .mvb_status => false
  | .mvb_ctrl => true

/-- A write through the sysfs boundary: when the attribute has a store
method it forwards the (already parsed) u16 value to the bus, as
mcom_fpga_store_word does; when it has none, sysfs rejects the write with
-EACCES before any driver or bus code runs. -/
def sysfs_store (a : WdAttr) (value : Nat) (st : BusTrace) : BusTrace × Int :=
  if attrHasStore a then i2c_smbus_write_word_data st (attrReg a) value
  else (st, -13)

/-- A read through the sysfs boundary: when the attribute has a show method
it reads the register from the bus, as each _show does; when it has none,
sysfs rejects the read with -EACCES before any driver or bus code runs. -/
def sysfs_show (a : WdAttr) (st : BusTrace) : BusTrace × Int :=
  if attrHasShow a then i2c_smbus_read_word_data st (attrReg a)
  else (st, -13)

/-- The value last written to `addr` in the log, if any (later transactions
are nearer the end of the list). -/
def lastWrite : List BusOp → Nat → Option Nat
  | [], _ => none
  | op :: rest, addr =>
    match lastWrite rest addr with
    | some v => some v
    | none =>
      match op with
      | .writeWord a v => if a = addr then some v else none
      | _ => none

/-- A well-behaved register-file bus over initial register contents `regs`:
reads return the last value written to the register (or its initial
value), writes always succeed. -/
def registerBus (regs : Nat → Nat) : I2CBus :=
  ⟨fun log op =>
    match op with
    | .readWord a => Int.ofNat ((lastWrite log a).getD (regs a) % 65536)
    | _ => 0⟩

/-- The current 16-bit content of register `addr` given initial contents
`regs` and the write history `log`. -/
def regValue (regs : Nat → Nat) (log : List BusOp) (addr : Nat) : Nat :=
  (lastWrite log addr).getD (regs addr) % 65536

/-- A register-file bus whose `failIdx`-th transaction (counting from 0)
fails with errno `e`; all other transactions behave as `registerBus`. -/
def failBus (regs : Nat → Nat) (failIdx : Nat) (e : Int) : I2CBus :=
  ⟨fun log op =>
    if log.length = failIdx then e else (registerBus regs).outcome log op⟩

/-- The write the driver issues to the uptime register when setting
timeout `t`. -/
def uptimeWriteOp (t : Nat) : BusOp :=
  BusOp.writeWord WD_UPTIME (t % 65536)

/-- Whether a bus transaction is a word write to the uptime register. -/
def isUptimeWrite : BusOp → Bool
  | BusOp.writeWord a _ => a == WD_UPTIME
  | _ => false

/-- The force-low write of the kick pulse (value 0x0000). -/
def kickLow : BusOp := BusOp.writeWord WD_KICK 0x0000

/-- The pulse-high write of the kick pulse (value 0x0100). -/
def kickHigh : BusOp := BusOp.writeWord WD_KICK 0x0100

/-! Helper lemmas about the bit arithmetic of the mode field. -/

lemma and_dis_mode_mask (v : Nat) : v &&& WD_DIS_MASK &&& WD_MODE_MASK = v &&& 120 := by
  have h : (127 : Nat) &&& 248 = 120 := by decide
  rw [WD_DIS_MASK, WD_MODE_MASK, Nat.and_assoc, h]

lemma or_and_self_of_and_eq_zero {m k : Nat} (v : Nat) (h : m &&& k = 0) :
    ((v &&& k) ||| m) &&& k = v &&& k := by
  rw [Nat.and_distrib_right, Nat.and_assoc, Nat.and_self, h, Nat.or_zero]

lemma and_mask_lt (v k b : Nat) (h : k < b) : v &&& k < b :=
  lt_of_le_of_lt Nat.and_le_right h

lemma masked_or_lt (v m : Nat) (hm : m < 65536) : (v &&& 120) ||| m < 65536 := by
  have h1 : v &&& 120 < 2 ^ 16 := and_mask_lt v 120 (2 ^ 16) (by norm_num)
  have h2 : m < 2 ^ 16 := by norm_num at hm ⊢; exact hm
  have := Nat.or_lt_two_pow h1 h2
  norm_num at this ⊢
  exact this

/-! Helper lemmas about `lastWrite` and `regValue`. -/

lemma lastWrite_append (xs ys : List BusOp) (a : Nat) :
    lastWrite (xs ++ ys) a =
      match lastWrite ys a with
      | some v => some v
      | none => lastWrite xs a := by
  induction xs with
  | nil =>
    simp only [List.nil_append]
    cases lastWrite ys a <;> simp [lastWrite]
  | cons op rest ih =>
    simp only [List.cons_append, lastWrite, List.append_eq, ih]
    cases lastWrite ys a <;> cases lastWrite rest a <;> rfl

lemma regValue_after_rmw (regs : Nat → Nat) (log : List BusOp) (b a w : Nat) :
    regValue regs (log ++ [BusOp.readWord b, BusOp.writeWord a w]) a = w % 65536 := by
  simp [regValue, lastWrite_append, lastWrite]

/-- Running `mcom_fpga_set_mode` on a well-behaved register-file bus, from
an arbitrary transaction history: the status read succeeds with the current
register content `v`, and `(v &&& 0x7F &&& 0xF8) ||| m = (v &&& 120) ||| m`
is written back; the call returns 0. -/
lemma set_mode_registerBus (regs : Nat → Nat) (log : List BusOp) (m : Nat) (hm : m < 65536) :
    mcom_fpga_set_mode ⟨registerBus regs, log⟩ m =
      (⟨registerBus regs,
        log ++ [BusOp.readWord WD_STATUS_CONTROLL,
          BusOp.writeWord WD_STATUS_CONTROLL
            ((regValue regs log WD_STATUS_CONTROLL &&& 120) ||| m)]⟩, 0) := by
  have hm' : m % 65536 = m := Nat.mod_eq_of_lt hm
  have hv : regValue regs log WD_STATUS_CONTROLL < 65536 :=
    Nat.mod_lt _ (by norm_num)
  have hr : (registerBus regs).outcome log (BusOp.readWord WD_STATUS_CONTROLL)
      = Int.ofNat (regValue regs log WD_STATUS_CONTROLL) := rfl
  have hnn : ¬ (Int.ofNat (regValue regs log WD_STATUS_CONTROLL) < 0) := by
    simp
  have hmod : Int.ofNat (regValue regs log WD_STATUS_CONTROLL) % 65536
      = Int.ofNat (regValue regs log WD_STATUS_CONTROLL) :=
    Int.emod_eq_of_lt (Int.ofNat_nonneg _)
      (by rw [Int.ofNat_eq_natCast]; exact_mod_cast hv)
  have htn : (Int.ofNat (regValue regs log WD_STATUS_CONTROLL)).toNat
      = regValue regs log WD_STATUS_CONTROLL := rfl
  have hw : ((regValue regs log WD_STATUS_CONTROLL &&& 120) ||| m) % 65536
      = (regValue regs log WD_STATUS_CONTROLL &&& 120) ||| m :=
    Nat.mod_eq_of_lt (masked_or_lt _ _ hm)
  have hwr : ∀ (l : List BusOp) (w : Nat),
      (registerBus regs).outcome l (BusOp.writeWord WD_STATUS_CONTROLL w) = 0 :=
    fun _ _ => rfl
  simp only [mcom_fpga_set_mode, i2c_smbus_read_word_data, i2c_smbus_write_word_data,
    hm', hr, hmod, if_neg hnn, htn, and_dis_mode_mask, hw, hwr,
    List.append_assoc, List.singleton_append]
  norm_num

/-- Running `mcom_fpga_set_timeout` from an empty history on an arbitrary
bus: exactly one word write of `t % 2^16` to WD_UPTIME is issued; the
cached timeout becomes `t` exactly when that write succeeded, and is left
untouched (with the errno returned) when the write failed. -/
lemma set_timeout_run (bus : I2CBus) (wdd : watchdog_device) (t : Nat) :
    mcom_fpga_set_timeout wdd ⟨bus, []⟩ t =
      if bus.outcome [] (uptimeWriteOp t) < 0 then
        (wdd, ⟨bus, [uptimeWriteOp t]⟩, bus.outcome [] (uptimeWriteOp t))
      else (⟨t⟩, ⟨bus, [uptimeWriteOp t]⟩, 0) := by
  rcases lt_or_le (bus.outcome [] (uptimeWriteOp t)) 0 with h | h
  · have hne : bus.outcome [] (uptimeWriteOp t) ≠ 0 := by omega
    simp only [mcom_fpga_set_timeout, i2c_smbus_write_word_data, uptimeWriteOp] at *
    simp only [if_pos h, if_neg hne, List.nil_append]
  · have hnl : ¬ (bus.outcome [] (uptimeWriteOp t) < 0) := not_lt.mpr h
    simp only [mcom_fpga_set_timeout, i2c_smbus_write_word_data, uptimeWriteOp] at *
    simp only [if_neg hnl, List.nil_append]
    simp

/-- C2: `kick()` issues exactly three writes to the kick register, with
values in the literal order 0x0000, 0x0100, 0x0000; the first failing
write's error is returned immediately and none of the remaining writes is
attempted (in particular, a failure on the second write means no third
write occurs). -/
theorem C2_kick_pulse (bus : I2CBus) :
    (bus.outcome [] kickLow < 0 →
      kick_wdt ⟨bus, []⟩ = (⟨bus, [kickLow]⟩, bus.outcome [] kickLow)) ∧
    (0 ≤ bus.outcome [] kickLow → bus.outcome [kickLow] kickHigh < 0 →
      kick_wdt ⟨bus, []⟩ =
        (⟨bus, [kickLow, kickHigh]⟩, bus.outcome [kickLow] kickHigh)) ∧
    (0 ≤ bus.outcome [] kickLow → 0 ≤ bus.outcome [kickLow] kickHigh →
      bus.outcome [kickLow, kickHigh] kickLow < 0 →
      kick_wdt ⟨bus, []⟩ =
        (⟨bus, [kickLow, kickHigh, kickLow]⟩,
          bus.outcome [kickLow, kickHigh] kickLow)) ∧
    (0 ≤ bus.outcome [] kickLow → 0 ≤ bus.outcome [kickLow] kickHigh →
      0 ≤ bus.outcome [kickLow, kickHigh] kickLow →
      kick_wdt ⟨bus, []⟩ = (⟨bus, [kickLow, kickHigh, kickLow]⟩, 0)) := by
  have hlow : BusOp.writeWord WD_KICK (0 % 65536) = kickLow := rfl
  have hhigh : BusOp.writeWord WD_KICK (256 % 65536) = kickHigh := rfl
  refine ⟨fun h0 => ?_, fun h0 h1 => ?_, fun h0 h1 h2 => ?_, fun h0 h1 h2 => ?_⟩ <;>
    simp only [kick_wdt, i2c_smbus_write_word_data, List.nil_append, List.cons_append,
      List.singleton_append, hlow, hhigh] <;>
    split_ifs <;> first | rfl | omega

/-- C2 witness: on a register-file bus whose second transaction fails with
errno -5, kick stops after the second write and returns -5. -/
theorem C2_kick_pulse_witness :
    0 ≤ (failBus (fun _ => 0) 1 (-5)).outcome [] kickLow ∧
    (failBus (fun _ => 0) 1 (-5)).outcome [kickLow] kickHigh < 0 ∧
    kick_wdt ⟨failBus (fun _ => 0) 1 (-5), []⟩ =
      (⟨failBus (fun _ => 0) 1 (-5), [kickLow, kickHigh]⟩,
        (failBus (fun _ => 0) 1 (-5)).outcome [kickLow] kickHigh) :=
  ⟨by decide, by decide,
    (C2_kick_pulse (failBus (fun _ => 0) 1 (-5))).2.1 (by decide) (by decide)⟩

/-- C3: `setMode(target)` first reads the status/control register; if that
read fails, the error is returned and no bus write is issued; if the read
returns the 16-bit word `oldValue`, the value written back to the
status/control register is exactly
`(oldValue &&& WD_DIS_MASK &&& WD_MODE_MASK) ||| target`, i.e.
`(oldValue & 0x7F & 0xF8) | target`, in a single read-modify-write. -/
theorem C3_set_mode_rmw (bus : I2CBus) (target : Nat) (ht : target < 65536) :
    (bus.outcome [] (BusOp.readWord WD_STATUS_CONTROLL) < 0 →
      mcom_fpga_set_mode ⟨bus, []⟩ target =
        (⟨bus, [BusOp.readWord WD_STATUS_CONTROLL]⟩,
          bus.outcome [] (BusOp.readWord WD_STATUS_CONTROLL))) ∧
    (0 ≤ bus.outcome [] (BusOp.readWord WD_STATUS_CONTROLL) →
      (mcom_fpga_set_mode ⟨bus, []⟩ target).1.log =
        [BusOp.readWord WD_STATUS_CONTROLL,
          BusOp.writeWord WD_STATUS_CONTROLL
            ((((bus.outcome [] (BusOp.readWord WD_STATUS_CONTROLL)).toNat % 65536)
              &&& WD_DIS_MASK &&& WD_MODE_MASK) ||| target)]) := by
  have hm' : target % 65536 = target := Nat.mod_eq_of_lt ht
  constructor
  · intro h0
    simp only [mcom_fpga_set_mode, i2c_smbus_read_word_data, List.nil_append,
      if_pos h0, hm']
  · intro h0
    obtain ⟨n, hn⟩ := Int.eq_ofNat_of_zero_le h0
    have hmod : (n : Int) % 65536 = ((n % 65536 : Nat) : Int) := by omega
    have hnn : ¬ ((n : Int) < 0) := by omega
    have hnn2 : ¬ (((n % 65536 : Nat) : Int) < 0) := by omega
    have htn : ((n % 65536 : Nat) : Int).toNat = n % 65536 := Int.toNat_ofNat _
    have htn2 : ((n : Nat) : Int).toNat = n := Int.toNat_ofNat _
    have hmm : n % 65536 % 65536 = n % 65536 := Nat.mod_mod_of_dvd n dvd_rfl
    have hw : ((n % 65536 &&& WD_DIS_MASK &&& WD_MODE_MASK) ||| target) % 65536
        = (n % 65536 &&& WD_DIS_MASK &&& WD_MODE_MASK) ||| target := by
      rw [and_dis_mode_mask]
      exact Nat.mod_eq_of_lt (masked_or_lt _ _ ht)
    simp only [mcom_fpga_set_mode, i2c_smbus_read_word_data, i2c_smbus_write_word_data,
      List.nil_append, hm', hn, Int.ofNat_eq_natCast, hmod, if_neg hnn, if_neg hnn2,
      htn, htn2, hmm, hw, List.singleton_append]

/-- C3 witness: with a bus whose first transaction fails with errno -5,
setMode(0x02) returns -5 after the lone read and issues no write. -/
theorem C3_set_mode_rmw_witness :
    (2 : Nat) < 65536 ∧
    (failBus (fun _ => 0) 0 (-5)).outcome [] (BusOp.readWord WD_STATUS_CONTROLL) < 0 ∧
    mcom_fpga_set_mode ⟨failBus (fun _ => 0) 0 (-5), []⟩ 2 =
      (⟨failBus (fun _ => 0) 0 (-5), [BusOp.readWord WD_STATUS_CONTROLL]⟩,
        (failBus (fun _ => 0) 0 (-5)).outcome [] (BusOp.readWord WD_STATUS_CONTROLL)) :=
  ⟨by decide, by decide,
    (C3_set_mode_rmw (failBus (fun _ => 0) 0 (-5)) 2 (by decide)).1 (by decide)⟩

/-- C5 counterexample: at t = 65536 the claim "setTimeout(t) writes t to
the uptime register" fails: the call succeeds and caches 65536, but the
single uptime write carries 65536 % 2^16 = 0, not 65536. -/
theorem C5_counterexample :
    (mcom_fpga_set_timeout ⟨0⟩ ⟨registerBus (fun _ => 0), []⟩ 65536).2.2 = 0 ∧
    (mcom_fpga_set_timeout ⟨0⟩ ⟨registerBus (fun _ => 0), []⟩ 65536).1.timeout = 65536 ∧
    (mcom_fpga_set_timeout ⟨0⟩ ⟨registerBus (fun _ => 0), []⟩ 65536).2.1.log
      = [BusOp.writeWord WD_UPTIME 0] ∧
    (mcom_fpga_set_timeout ⟨0⟩ ⟨registerBus (fun _ => 0), []⟩ 65536).2.1.log
      ≠ [BusOp.writeWord WD_UPTIME 65536] := by
  decide

/-- C5 (amended): for every timeout t, setTimeout issues exactly one bus
write, of t % 2^16 (equal to t whenever t fits 16 bits), to the uptime
register; if the write succeeds the cached timeout becomes t and 0 is
returned; if the write fails the cached timeout is unchanged and the error
is returned. -/
theorem C5_set_timeout_cache (bus : I2CBus) (wdd : watchdog_device) (t : Nat) :
    (mcom_fpga_set_timeout wdd ⟨bus, []⟩ t).2.1.log = [uptimeWriteOp t] ∧
    (0 ≤ bus.outcome [] (uptimeWriteOp t) →
      (mcom_fpga_set_timeout wdd ⟨bus, []⟩ t).1.timeout = t ∧
      (mcom_fpga_set_timeout wdd ⟨bus, []⟩ t).2.2 = 0) ∧
    (bus.outcome [] (uptimeWriteOp t) < 0 →
      (mcom_fpga_set_timeout wdd ⟨bus, []⟩ t).1 = wdd ∧
      (mcom_fpga_set_timeout wdd ⟨bus, []⟩ t).2.2 = bus.outcome [] (uptimeWriteOp t)) := by
  have h := set_timeout_run bus wdd t
  refine ⟨?_, fun hok => ?_, fun hf => ?_⟩
  · rcases lt_or_le (bus.outcome [] (uptimeWriteOp t)) 0 with hf | hok
    · rw [if_pos hf] at h
      rw [h]
    · rw [if_neg (not_lt.mpr hok)] at h
      rw [h]
  · rw [if_neg (not_lt.mpr hok)] at h
    rw [h]
    exact ⟨rfl, rfl⟩
  · rw [if_pos hf] at h
    rw [h]
    exact ⟨rfl, rfl⟩

/-- C5 witness: a bus that fails the first transaction with errno -5
leaves the cached timeout at its prior value 100 and returns -5. -/
theorem C5_set_timeout_cache_witness :
    (failBus (fun _ => 0) 0 (-5)).outcome [] (uptimeWriteOp 300) < 0 ∧
    (mcom_fpga_set_timeout ⟨100⟩ ⟨failBus (fun _ => 0) 0 (-5), []⟩ 300).1
      = (⟨100⟩ : watchdog_device) ∧
    (mcom_fpga_set_timeout ⟨100⟩ ⟨failBus (fun _ => 0) 0 (-5), []⟩ 300).2.2
      = (failBus (fun _ => 0) 0 (-5)).outcome [] (uptimeWriteOp 300) :=
  ⟨by decide,
    ((C5_set_timeout_cache (failBus (fun _ => 0) 0 (-5)) ⟨100⟩ 300).2.2 (by decide)).1,
    ((C5_set_timeout_cache (failBus (fun _ => 0) 0 (-5)) ⟨100⟩ 300).2.2 (by decide)).2⟩

/-- C10: for t > 65535, a successful setTimeout writes t % 2^16 to the
16-bit uptime register (silent truncation, no clamping or rejection) while
caching the full untruncated t, so the cached timeout and the hardware
register value differ after the call. -/
theorem C10_timeout_truncation (bus : I2CBus) (wdd : watchdog_device) (t : Nat)
    (ht : 65535 < t) (hok : 0 ≤ bus.outcome [] (uptimeWriteOp t)) :
    (mcom_fpga_set_timeout wdd ⟨bus, []⟩ t).2.1.log
      = [BusOp.writeWord WD_UPTIME (t % 65536)] ∧
    (mcom_fpga_set_timeout wdd ⟨bus, []⟩ t).1.timeout = t ∧
    t % 65536 ≠ t := by
  have h := set_timeout_run bus wdd t
  rw [if_neg (not_lt.mpr hok)] at h
  refine ⟨by rw [h]; rfl, by rw [h], ?_⟩
  have hlt : t % 65536 < 65536 := Nat.mod_lt _ (by norm_num)
  omega

/-- C10 witness: setTimeout 70000 on a working bus writes 4464 to the
uptime register while caching 70000. -/
theorem C10_timeout_truncation_witness :
    65535 < 70000 ∧
    0 ≤ (registerBus (fun _ => 0)).outcome [] (uptimeWriteOp 70000) ∧
    ((mcom_fpga_set_timeout ⟨0⟩ ⟨registerBus (fun _ => 0), []⟩ 70000).2.1.log
        = [BusOp.writeWord WD_UPTIME (70000 % 65536)] ∧
      (mcom_fpga_set_timeout ⟨0⟩ ⟨registerBus (fun _ => 0), []⟩ 70000).1.timeout = 70000 ∧
      70000 % 65536 ≠ 70000) :=
  ⟨by decide, by decide,
    C10_timeout_truncation (registerBus (fun _ => 0)) ⟨0⟩ 70000 (by decide) (by decide)⟩

/-- C1 counterexample: with prior status/control value 0x07 and canonical
mode Start (0x01), setMode succeeds but the resulting register value
(which is 0x01) has neither mode bits (under WD_MODE_MASK) equal to 0x01
nor its low 7 disable bits equal to those of the prior value 0x07: the
disable bits 0..2 were overwritten by the mode. -/
theorem C1_counterexample :
    (mcom_fpga_set_mode ⟨registerBus (fun _ => 0x07), []⟩ WD_START_MODE).2 = 0 ∧
    ¬ (regValue (fun _ => 0x07)
        (mcom_fpga_set_mode ⟨registerBus (fun _ => 0x07), []⟩ WD_START_MODE).1.log
        WD_STATUS_CONTROLL &&& WD_MODE_MASK = WD_START_MODE ∧
      regValue (fun _ => 0x07)
        (mcom_fpga_set_mode ⟨registerBus (fun _ => 0x07), []⟩ WD_START_MODE).1.log
        WD_STATUS_CONTROLL &&& WD_DIS_MASK = 0x07 &&& WD_DIS_MASK) := by
  decide

/-- C1 (amended): for canonical m and prior status/control value v, a
successful setMode(m) leaves the register equal to (v &&& 0x78) ||| m:
its low three bits hold exactly m, bits 3..6 of the disable field are
unchanged from v, and bits 0..2 and 7 of the disable field as well as the
whole upper byte are cleared — only part of the disable field survives. -/
theorem C1_set_mode_canonical (m : Nat)
    (hm : m = WD_START_MODE ∨ m = WD_NORMAL_MODE ∨ m = WD_DOWN_MODE)
    (regs : Nat → Nat) :
    (mcom_fpga_set_mode ⟨registerBus regs, []⟩ m).2 = 0 ∧
    regValue regs (mcom_fpga_set_mode ⟨registerBus regs, []⟩ m).1.log WD_STATUS_CONTROLL
      = ((regValue regs [] WD_STATUS_CONTROLL &&& 120) ||| m) ∧
    regValue regs (mcom_fpga_set_mode ⟨registerBus regs, []⟩ m).1.log WD_STATUS_CONTROLL
      &&& 7 = m ∧
    regValue regs (mcom_fpga_set_mode ⟨registerBus regs, []⟩ m).1.log WD_STATUS_CONTROLL
      &&& 120 = regValue regs [] WD_STATUS_CONTROLL &&& 120 ∧
    regValue regs (mcom_fpga_set_mode ⟨registerBus regs, []⟩ m).1.log WD_STATUS_CONTROLL
      < 128 := by
  have hm16 : m < 65536 := by rcases hm with h | h | h <;> subst h <;> decide
  have hmz : m &&& 120 = 0 := by rcases hm with h | h | h <;> subst h <;> decide
  have hm7 : m &&& 7 = m := by rcases hm with h | h | h <;> subst h <;> decide
  have hm128 : m < 128 := by rcases hm with h | h | h <;> subst h <;> decide
  have h := set_mode_registerBus regs [] m hm16
  have hreg : regValue regs (mcom_fpga_set_mode ⟨registerBus regs, []⟩ m).1.log
      WD_STATUS_CONTROLL = (regValue regs [] WD_STATUS_CONTROLL &&& 120) ||| m := by
    simp only [h, regValue_after_rmw]
    exact Nat.mod_eq_of_lt (masked_or_lt _ _ hm16)
  refine ⟨by rw [h], hreg, ?_, ?_, ?_⟩
  · have e1 : (120 : Nat) &&& 7 = 0 := by decide
    rw [hreg, Nat.and_distrib_right, Nat.and_assoc, e1, Nat.and_zero, Nat.zero_or, hm7]
  · rw [hreg]
    exact or_and_self_of_and_eq_zero _ hmz
  · rw [hreg]
    have h1 : regValue regs [] WD_STATUS_CONTROLL &&& 120 < 2 ^ 7 :=
      and_mask_lt _ 120 (2 ^ 7) (by norm_num)
    have h2 : m < 2 ^ 7 := by
      norm_num
      exact hm128
    have h3 := Nat.or_lt_two_pow h1 h2
    norm_num at h3
    exact h3

/-- C1 witness: the amended statement evaluated at prior value 0x55 and
mode Normal (0x02): the register becomes 0x52. -/
theorem C1_set_mode_canonical_witness :
    (WD_NORMAL_MODE = WD_START_MODE ∨ WD_NORMAL_MODE = WD_NORMAL_MODE ∨
      WD_NORMAL_MODE = WD_DOWN_MODE) ∧
    ((mcom_fpga_set_mode ⟨registerBus (fun _ => 0x55), []⟩ WD_NORMAL_MODE).2 = 0 ∧
    regValue (fun _ => 0x55)
        (mcom_fpga_set_mode ⟨registerBus (fun _ => 0x55), []⟩ WD_NORMAL_MODE).1.log
        WD_STATUS_CONTROLL
      = ((regValue (fun _ => 0x55) [] WD_STATUS_CONTROLL &&& 120) ||| WD_NORMAL_MODE) ∧
    regValue (fun _ => 0x55)
        (mcom_fpga_set_mode ⟨registerBus (fun _ => 0x55), []⟩ WD_NORMAL_MODE).1.log
        WD_STATUS_CONTROLL &&& 7 = WD_NORMAL_MODE ∧
    regValue (fun _ => 0x55)
        (mcom_fpga_set_mode ⟨registerBus (fun _ => 0x55), []⟩ WD_NORMAL_MODE).1.log
        WD_STATUS_CONTROLL &&& 120
      = regValue (fun _ => 0x55) [] WD_STATUS_CONTROLL &&& 120 ∧
    regValue (fun _ => 0x55)
        (mcom_fpga_set_mode ⟨registerBus (fun _ => 0x55), []⟩ WD_NORMAL_MODE).1.log
        WD_STATUS_CONTROLL < 128) :=
  ⟨Or.inr (Or.inl rfl),
    C1_set_mode_canonical WD_NORMAL_MODE (Or.inr (Or.inl rfl)) (fun _ => 0x55)⟩

/-- C4 counterexample: setMode(0x03), a value outside the canonical set,
is NOT rejected before bus access: it issues two bus transactions (the
status read and the write) and returns success. -/
theorem C4_counterexample :
    ((3 : Nat) ≠ WD_START_MODE ∧ (3 : Nat) ≠ WD_NORMAL_MODE ∧ (3 : Nat) ≠ WD_DOWN_MODE) ∧
    (mcom_fpga_set_mode ⟨registerBus (fun _ => 0), []⟩ 3).1.log.length = 2 ∧
    (mcom_fpga_set_mode ⟨registerBus (fun _ => 0), []⟩ 3).2 = 0 := by
  decide

/-- C4 (amended): the driver validates nothing about the mode argument:
for every 16-bit mode value, canonical or not, setMode issues exactly the
same two bus transactions — the status read followed by the write of
(old &&& 0x78) ||| mode — and succeeds on a working bus; no rejection
happens before bus access. -/
theorem C4_no_mode_validation (m : Nat) (hm : m < 65536) (regs : Nat → Nat) :
    mcom_fpga_set_mode ⟨registerBus regs, []⟩ m =
      (⟨registerBus regs,
        [BusOp.readWord WD_STATUS_CONTROLL,
          BusOp.writeWord WD_STATUS_CONTROLL
            ((regValue regs [] WD_STATUS_CONTROLL &&& 120) ||| m)]⟩, 0) := by
  simpa using set_mode_registerBus regs [] m hm

/-- C4 witness: the non-canonical mode 0x03 goes through to the bus. -/
theorem C4_no_mode_validation_witness :
    (3 : Nat) < 65536 ∧
    mcom_fpga_set_mode ⟨registerBus (fun _ => 0), []⟩ 3 =
      (⟨registerBus (fun _ => 0),
        [BusOp.readWord WD_STATUS_CONTROLL,
          BusOp.writeWord WD_STATUS_CONTROLL
            ((regValue (fun _ => 0) [] WD_STATUS_CONTROLL &&& 120) ||| 3)]⟩, 0) :=
  ⟨by decide, C4_no_mode_validation 3 (by decide) (fun _ => 0)⟩

/-- C8: stop() is observably idempotent: from any starting register
contents, two successive stop() calls (all bus operations succeeding on
the register-file bus) both perform the read-modify-write and succeed, and
the status/control register holds the same value after the second call as
after the first. -/
theorem C8_stop_idempotent (regs : Nat → Nat) :
    (mcom_fpga_stop ⟨registerBus regs, []⟩).2 = 0 ∧
    (mcom_fpga_stop (mcom_fpga_stop ⟨registerBus regs, []⟩).1).2 = 0 ∧
    (mcom_fpga_stop (mcom_fpga_stop ⟨registerBus regs, []⟩).1).1.log.length = 4 ∧
    regValue regs (mcom_fpga_stop (mcom_fpga_stop ⟨registerBus regs, []⟩).1).1.log
        WD_STATUS_CONTROLL
      = regValue regs (mcom_fpga_stop ⟨registerBus regs, []⟩).1.log WD_STATUS_CONTROLL := by
  have hm4 : (WD_DOWN_MODE : Nat) < 65536 := by decide
  have hz : WD_DOWN_MODE &&& 120 = 0 := by decide
  have hw1lt : (regValue regs [] WD_STATUS_CONTROLL &&& 120) ||| WD_DOWN_MODE < 65536 :=
    masked_or_lt _ _ hm4
  have h1 := set_mode_registerBus regs [] WD_DOWN_MODE hm4
  have hreg1 : regValue regs
      ([] ++ [BusOp.readWord WD_STATUS_CONTROLL,
        BusOp.writeWord WD_STATUS_CONTROLL
          ((regValue regs [] WD_STATUS_CONTROLL &&& 120) ||| WD_DOWN_MODE)])
      WD_STATUS_CONTROLL
      = (regValue regs [] WD_STATUS_CONTROLL &&& 120) ||| WD_DOWN_MODE := by
    rw [regValue_after_rmw]
    exact Nat.mod_eq_of_lt hw1lt
  have h2 := set_mode_registerBus regs
    ([] ++ [BusOp.readWord WD_STATUS_CONTROLL,
      BusOp.writeWord WD_STATUS_CONTROLL
        ((regValue regs [] WD_STATUS_CONTROLL &&& 120) ||| WD_DOWN_MODE)])
    WD_DOWN_MODE hm4
  rw [hreg1, or_and_self_of_and_eq_zero _ hz] at h2
  refine ⟨?_, ?_, ?_, ?_⟩
  · simp only [mcom_fpga_stop, h1]
  · simp only [mcom_fpga_stop, h1, h2]
  · simp only [mcom_fpga_stop, h1, h2]
    rfl
  · simp only [mcom_fpga_stop, h1, h2]
    rw [regValue_after_rmw, hreg1]
    exact Nat.mod_eq_of_lt hw1lt

/-- Helper: which bits the mask 0x78 = 120 keeps. -/
lemma testBit_120 (i : Nat) : (120 : Nat).testBit i = decide (3 ≤ i ∧ i ≤ 6) := by
  rcases i with _ | _ | _ | _ | _ | _ | _ | i
  · decide
  · decide
  · decide
  · decide
  · decide
  · decide
  · decide
  · have hlt : (120 : Nat) < 2 ^ (i + 7) :=
      lt_of_lt_of_le (show (120 : Nat) < 2 ^ 7 by norm_num)
        (Nat.pow_le_pow_right (by norm_num) (by omega))
    rw [Nat.testBit_lt_two_pow hlt]
    have : ¬ (3 ≤ i + 7 ∧ i + 7 ≤ 6) := by omega
    simp [this]

/-- C9: a successful setMode(m) writes (v &&& 0x78) ||| m where v is the
prior register value: before m is OR-ed in, exactly the bits i of v with
3 ≤ i ≤ 6 survive — bits 0..2, bit 7 and the entire upper byte (and
everything above) are cleared, so any state held there is lost on every
mode change. -/
theorem C9_set_mode_frame (regs : Nat → Nat) (m : Nat) (hm : m < 65536) :
    (mcom_fpga_set_mode ⟨registerBus regs, []⟩ m).1.log
      = [BusOp.readWord WD_STATUS_CONTROLL,
        BusOp.writeWord WD_STATUS_CONTROLL
          ((regValue regs [] WD_STATUS_CONTROLL &&& 120) ||| m)] ∧
    (∀ i : Nat, (regValue regs [] WD_STATUS_CONTROLL &&& 120).testBit i
      = ((regValue regs [] WD_STATUS_CONTROLL).testBit i && decide (3 ≤ i ∧ i ≤ 6))) := by
  constructor
  · have h := set_mode_registerBus regs [] m hm
    rw [h]
    rfl
  · intro i
    rw [Nat.testBit_and, testBit_120]

/-- C9 witness: at prior value 0xFFFF and mode 0x02, evaluated at bit 5
(kept) — the written value is (0xFFFF &&& 0x78) ||| 2. -/
theorem C9_set_mode_frame_witness :
    (2 : Nat) < 65536 ∧
    (mcom_fpga_set_mode ⟨registerBus (fun _ => 0xFFFF), []⟩ 2).1.log
      = [BusOp.readWord WD_STATUS_CONTROLL,
        BusOp.writeWord WD_STATUS_CONTROLL
          ((regValue (fun _ => 0xFFFF) [] WD_STATUS_CONTROLL &&& 120) ||| 2)] ∧
    (regValue (fun _ => 0xFFFF) [] WD_STATUS_CONTROLL &&& 120).testBit 5
      = ((regValue (fun _ => 0xFFFF) [] WD_STATUS_CONTROLL).testBit 5 &&
          decide (3 ≤ 5 ∧ 5 ≤ 6)) :=
  ⟨by decide, (C9_set_mode_frame (fun _ => 0xFFFF) 2 (by decide)).1,
    (C9_set_mode_frame (fun _ => 0xFFFF) 2 (by decide)).2 5⟩

/-- C7: register access modes are fixed by the sysfs attribute
declarations and enforced at the interface boundary before any bus
access: the temperature and MVB-status attributes expose no store method
(a write is rejected with no bus transaction), the peripheral-reset
attribute exposes no show method (a read is rejected with no bus
transaction), and every other attribute in the table is read-write. -/
theorem C7_access_mode_enforcement :
    attrHasStore WdAttr.temperature = false ∧
    attrHasStore WdAttr.mvb_status = false ∧
    attrHasShow WdAttr.perepherie_reset = false ∧
    (∀ a : WdAttr, a ≠ WdAttr.temperature → a ≠ WdAttr.mvb_status →
      a ≠ WdAttr.perepherie_reset → attrHasShow a = true ∧ attrHasStore a = true) ∧
    (∀ (v : Nat) (st : BusTrace),
      (sysfs_store WdAttr.temperature v st).1.log = st.log ∧
      (sysfs_store WdAttr.temperature v st).2 < 0 ∧
      (sysfs_store WdAttr.mvb_status v st).1.log = st.log ∧
      (sysfs_store WdAttr.mvb_status v st).2 < 0) ∧
    (∀ st : BusTrace,
      (sysfs_show WdAttr.perepherie_reset st).1.log = st.log ∧
      (sysfs_show WdAttr.perepherie_reset st).2 < 0) := by
  refine ⟨rfl, rfl, rfl, ?_,
    fun v st => ⟨rfl, (by decide : (-13 : Int) < 0), rfl, (by decide : (-13 : Int) < 0)⟩,
    fun st => ⟨rfl, (by decide : (-13 : Int) < 0)⟩⟩
  intro a h1 h2 h3
  cases a <;>
    first
      | exact ⟨rfl, rfl⟩
      | exact absurd rfl h1
      | exact absurd rfl h2
      | exact absurd rfl h3

/-- C7 witness: the uptime attribute is read-write, and concrete rejected
accesses to temperature (write) and peripheral-reset (read) leave the bus
log empty. -/
theorem C7_access_mode_enforcement_witness :
    WdAttr.uptime ≠ WdAttr.temperature ∧
    WdAttr.uptime ≠ WdAttr.mvb_status ∧
    WdAttr.uptime ≠ WdAttr.perepherie_reset ∧
    (attrHasShow WdAttr.uptime = true ∧ attrHasStore WdAttr.uptime = true) ∧
    ((sysfs_store WdAttr.temperature 5 ⟨registerBus (fun _ => 0), []⟩).1.log
        = (⟨registerBus (fun _ => 0), []⟩ : BusTrace).log ∧
      (sysfs_store WdAttr.temperature 5 ⟨registerBus (fun _ => 0), []⟩).2 < 0 ∧
      (sysfs_store WdAttr.mvb_status 5 ⟨registerBus (fun _ => 0), []⟩).1.log
        = (⟨registerBus (fun _ => 0), []⟩ : BusTrace).log ∧
      (sysfs_store WdAttr.mvb_status 5 ⟨registerBus (fun _ => 0), []⟩).2 < 0) ∧
    ((sysfs_show WdAttr.perepherie_reset ⟨registerBus (fun _ => 0), []⟩).1.log
        = (⟨registerBus (fun _ => 0), []⟩ : BusTrace).log ∧
      (sysfs_show WdAttr.perepherie_reset ⟨registerBus (fun _ => 0), []⟩).2 < 0) :=
  ⟨by decide, by decide, by decide,
    C7_access_mode_enforcement.2.2.2.1 WdAttr.uptime (by decide) (by decide) (by decide),
    C7_access_mode_enforcement.2.2.2.2.1 5 ⟨registerBus (fun _ => 0), []⟩,
    C7_access_mode_enforcement.2.2.2.2.2 ⟨registerBus (fun _ => 0), []⟩⟩

/-- C6: probe at the fixed address 0x3c with no timeout override (module
parameter 0) reads the uptime register and adopts its value as the
timeout; exactly one word write — of that resolved timeout, to the uptime
register — follows; failure of any of these bus operations aborts probe
with that error and the device is not published; when all bus operations
succeed the device is published with cached timeout equal to the adopted
uptime value and the trace contains exactly one uptime write. -/
theorem C6_probe_bootstrap (bus : I2CBus) :
    (bus.outcome [] (BusOp.readWord WD_UPTIME) < 0 →
      mcom_fpga_probe 0x3c 0 ⟨bus, []⟩ =
        ⟨none, ⟨bus, [BusOp.readWord WD_UPTIME]⟩,
          bus.outcome [] (BusOp.readWord WD_UPTIME)⟩) ∧
    (∀ n : Nat, bus.outcome [] (BusOp.readWord WD_UPTIME) = (n : Int) →
      (bus.outcome [BusOp.readWord WD_UPTIME]
          (BusOp.writeWord WD_UPTIME (n % 65536)) < 0 →
        mcom_fpga_probe 0x3c 0 ⟨bus, []⟩ =
          ⟨none,
            ⟨bus, [BusOp.readWord WD_UPTIME, BusOp.writeWord WD_UPTIME (n % 65536)]⟩,
            bus.outcome [BusOp.readWord WD_UPTIME]
              (BusOp.writeWord WD_UPTIME (n % 65536))⟩) ∧
      (0 ≤ bus.outcome [BusOp.readWord WD_UPTIME]
          (BusOp.writeWord WD_UPTIME (n % 65536)) →
        (bus.outcome [BusOp.readWord WD_UPTIME, BusOp.writeWord WD_UPTIME (n % 65536)]
            (BusOp.writeByte 6 0) < 0 →
          mcom_fpga_probe 0x3c 0 ⟨bus, []⟩ =
            ⟨none,
              ⟨bus, [BusOp.readWord WD_UPTIME, BusOp.writeWord WD_UPTIME (n % 65536),
                BusOp.writeByte 6 0]⟩,
              bus.outcome [BusOp.readWord WD_UPTIME, BusOp.writeWord WD_UPTIME (n % 65536)]
                (BusOp.writeByte 6 0)⟩) ∧
        (0 ≤ bus.outcome [BusOp.readWord WD_UPTIME, BusOp.writeWord WD_UPTIME (n % 65536)]
            (BusOp.writeByte 6 0) →
          mcom_fpga_probe 0x3c 0 ⟨bus, []⟩ =
            ⟨some ⟨n % 65536⟩,
              ⟨bus, [BusOp.readWord WD_UPTIME, BusOp.writeWord WD_UPTIME (n % 65536),
                BusOp.writeByte 6 0]⟩, 0⟩ ∧
          (mcom_fpga_probe 0x3c 0 ⟨bus, []⟩).trace.log.countP
            (fun op => isUptimeWrite op) = 1))) := by
  have haddr : ¬ ((60 : Nat) ≠ 60) := by decide
  have hz : ¬ ((0 : Nat) ≠ 0) := by decide
  have h00 : (0 : Nat) = 0 := rfl
  constructor
  · intro h0
    simp only [mcom_fpga_probe, watchdog_init_timeout, i2c_smbus_read_word_data,
      if_neg haddr, if_neg hz, if_pos h00, if_true, List.nil_append, if_pos h0]
  · intro n hn
    have hmod : (n : Int) % 65536 = ((n % 65536 : Nat) : Int) := by omega
    have hnn1 : ¬ ((n : Int) < 0) := by omega
    have hnn2 : ¬ (((n % 65536 : Nat) : Int) < 0) := by omega
    have htn : ((n % 65536 : Nat) : Int).toNat = n % 65536 := Int.toNat_ofNat _
    have hmm : n % 65536 % 65536 = n % 65536 := Nat.mod_mod_of_dvd n dvd_rfl
    have hb : (0 : Nat) % 256 = 0 := rfl
    constructor
    · intro h1
      have h1ne : bus.outcome [BusOp.readWord WD_UPTIME]
          (BusOp.writeWord WD_UPTIME (n % 65536)) ≠ 0 := by omega
      simp only [mcom_fpga_probe, watchdog_init_timeout, i2c_smbus_read_word_data,
        i2c_smbus_write_word_data, mcom_fpga_set_timeout,
        if_neg haddr, if_neg hz, if_pos h00, if_true, List.nil_append, hn, hmod,
        if_neg hnn1, if_neg hnn2, htn, hmm, if_pos h1, ite_self, if_pos h1ne, List.singleton_append]
    · intro h1
      have h1nl : ¬ (bus.outcome [BusOp.readWord WD_UPTIME]
          (BusOp.writeWord WD_UPTIME (n % 65536)) < 0) := not_lt.mpr h1
      have h0z : ¬ ((0 : Int) ≠ 0) := by decide
      constructor
      · intro h2
        have h2ne : bus.outcome
            [BusOp.readWord WD_UPTIME, BusOp.writeWord WD_UPTIME (n % 65536)]
            (BusOp.writeByte 6 0) ≠ 0 := by omega
        simp only [mcom_fpga_probe, watchdog_init_timeout, i2c_smbus_read_word_data,
          i2c_smbus_write_word_data, i2c_smbus_write_byte_data, mcom_fpga_set_timeout,
          if_neg haddr, if_neg hz, if_pos h00, if_true, List.nil_append, hn, hmod,
          if_neg hnn1, if_neg hnn2, htn, hmm, hb, if_neg h1nl, ite_self, if_neg h0z,
          if_pos h2, if_pos h2ne, List.singleton_append, List.cons_append]
      · intro h2
        have h2nl : ¬ (bus.outcome
            [BusOp.readWord WD_UPTIME, BusOp.writeWord WD_UPTIME (n % 65536)]
            (BusOp.writeByte 6 0) < 0) := not_lt.mpr h2
        have hrun : mcom_fpga_probe 0x3c 0 ⟨bus, []⟩ =
            ⟨some ⟨n % 65536⟩,
              ⟨bus, [BusOp.readWord WD_UPTIME, BusOp.writeWord WD_UPTIME (n % 65536),
                BusOp.writeByte 6 0]⟩, 0⟩ := by
          simp only [mcom_fpga_probe, watchdog_init_timeout, i2c_smbus_read_word_data,
            i2c_smbus_write_word_data, i2c_smbus_write_byte_data, mcom_fpga_set_timeout,
            if_neg haddr, if_neg hz, if_pos h00, if_true, List.nil_append, hn, hmod,
            if_neg hnn1, if_neg hnn2, htn, hmm, hb, if_neg h1nl, ite_self, if_neg h0z, if_neg h2nl,
            List.singleton_append, List.cons_append]
        refine ⟨hrun, ?_⟩
        rw [hrun]
        simp [List.countP_cons, isUptimeWrite]

/-- C6 witness: with a register-file bus whose uptime register holds 120
and no module-parameter override, probe succeeds, publishes the device
with cached timeout 120, and issues exactly one uptime write. -/
theorem C6_probe_bootstrap_witness :
    (registerBus (fun _ => 120)).outcome [] (BusOp.readWord WD_UPTIME) = ((120 : Nat) : Int) ∧
    0 ≤ (registerBus (fun _ => 120)).outcome [BusOp.readWord WD_UPTIME]
        (BusOp.writeWord WD_UPTIME (120 % 65536)) ∧
    0 ≤ (registerBus (fun _ => 120)).outcome
        [BusOp.readWord WD_UPTIME, BusOp.writeWord WD_UPTIME (120 % 65536)]
        (BusOp.writeByte 6 0) ∧
    (mcom_fpga_probe 0x3c 0 ⟨registerBus (fun _ => 120), []⟩ =
      ⟨some ⟨120 % 65536⟩,
        ⟨registerBus (fun _ => 120),
          [BusOp.readWord WD_UPTIME, BusOp.writeWord WD_UPTIME (120 % 65536),
            BusOp.writeByte 6 0]⟩, 0⟩ ∧
      (mcom_fpga_probe 0x3c 0 ⟨registerBus (fun _ => 120), []⟩).trace.log.countP
        (fun op => isUptimeWrite op) = 1) :=
  ⟨by decide, by decide, by decide,
    (((C6_probe_bootstrap (registerBus (fun _ => 120))).2 120 (by decide)).2
      (by decide)).2 (by decide)⟩

end McomFpga
